import Mathlib

/-!
Verification of the Airbnb/restaurants exploratory-data-analysis scripts.

The development shallowly embeds the code of `src/airbnb/bounding_box.py`,
`src/airbnb/airbnb.py` and `src/restuarants/restaurants.py`:

* machine floats become exact real numbers (`ℝ`) for the geometric routines,
  and rationals (`ℚ`) for the tabular data columns; the one place where the
  exact-real idealisation would flip the program's qualitative behaviour -
  the cosine of the parallel at latitude exactly ±90°, which the program
  computes as a small positive double rather than 0 - keeps the computed
  double value (see `math_cos`);
* pandas dataframes become lists of records, with the relevant pandas
  operations (`filter` masks, `concat`, `drop_duplicates(keep=False)`,
  `to_numeric(errors='coerce')`, `groupby(...).count()`) modelled on lists;
* Python `assert` statements and raising library calls become `Except`.
-/

/-! ## Bounding-box calculator (`src/airbnb/bounding_box.py`) -/

/-- The mutable `BoundingBox` object of the source, as an immutable record of
its four fields (all in degrees), in the order they are declared there. -/
structure BoundingBox where
  lat_min : ℝ
  lon_min : ℝ
  lat_max : ℝ
  lon_max : ℝ

/-- Python's `math.radians`: degrees to radians. -/
noncomputable def math_radians (x : ℝ) : ℝ := x * (Real.pi / 180)

/-- Python's `math.degrees`: radians to degrees. -/
noncomputable def math_degrees (x : ℝ) : ℝ := x * (180 / Real.pi)

/-- Python's `math.cos` as the program evaluates it, in double precision.
Away from ±π/2 the computed value is idealised as the exact cosine.  At
exactly ±π/2 the exact cosine is `0`, but the program never evaluates the
cosine there: its argument is `math.radians(±90)`, and the double
`math.radians(90) = 1.5707963267948966` lies strictly below π/2 (π/2 is not
representable), so the value the program computes is the small positive
double `math.cos(math.radians(±90)) = 6.123233995736766e-17`, not `0`.
This is the one point of the latitude range where the sign of the exact-real
idealisation differs from the computation, so the computed double is
substituted there. -/
noncomputable def math_cos (x : ℝ) : ℝ :=
  if x = Real.pi / 2 ∨ x = -(Real.pi / 2) then 6.123233995736766e-17 else Real.cos x

/-- The arithmetic body of `get_bounding_box` (lines 19-37 of
`bounding_box.py`), after the three `assert` statements have passed: convert
the centre to radians, treat Earth as a sphere of radius 6371 km, offset the
latitude by `half_side_in_km / radius` and the longitude by
`half_side_in_km / (radius * cos lat)`, and convert back to degrees. -/
noncomputable def bounding_box_of (latitude_in_degrees longitude_in_degrees half_side_in_km : ℝ) :
    BoundingBox :=
  let lat := math_radians latitude_in_degrees
  let lon := math_radians longitude_in_degrees
  let radius : ℝ := 6371
  let parallel_radius := radius * math_cos lat
  let lat_min := lat - half_side_in_km / radius
  let lat_max := lat + half_side_in_km / radius
  let lon_min := lon - half_side_in_km / parallel_radius
  let lon_max := lon + half_side_in_km / parallel_radius
  { lat_min := math_degrees lat_min
    lon_min := math_degrees lon_min
    lat_max := math_degrees lat_max
    lon_max := math_degrees lon_max }

/-- `get_bounding_box` of `bounding_box.py`: the three `assert` statements
(radius positive, latitude within [-90, 90], longitude within [-180, 180])
become `Except.error`, and a run in which every assertion passes returns the
box computed by `bounding_box_of`. -/
noncomputable def get_bounding_box (latitude_in_degrees longitude_in_degrees half_side_in_km : ℝ) :
    Except String BoundingBox :=
  if ¬ (half_side_in_km > 0) then
    .error "AssertionError: half_side_in_km > 0"
  else if ¬ (-90 ≤ latitude_in_degrees ∧ latitude_in_degrees ≤ 90) then
    .error "AssertionError: latitude_in_degrees out of range"
  else if ¬ (-180 ≤ longitude_in_degrees ∧ longitude_in_degrees ≤ 180) then
    .error "AssertionError: longitude_in_degrees out of range"
  else
    .ok (bounding_box_of latitude_in_degrees longitude_in_degrees half_side_in_km)

lemma bounding_box_of_def (lat lon h : ℝ) :
    bounding_box_of lat lon h =
      { lat_min := math_degrees (math_radians lat - h / 6371)
        lon_min := math_degrees (math_radians lon - h / (6371 * math_cos (math_radians lat)))
        lat_max := math_degrees (math_radians lat + h / 6371)
        lon_max := math_degrees (math_radians lon + h / (6371 * math_cos (math_radians lat))) } :=
  rfl

lemma get_bounding_box_ok (lat lon h : ℝ) (hh : 0 < h)
    (hlat1 : -90 ≤ lat) (hlat2 : lat ≤ 90) (hlon1 : -180 ≤ lon) (hlon2 : lon ≤ 180) :
    get_bounding_box lat lon h = .ok (bounding_box_of lat lon h) := by
  unfold get_bounding_box
  rw [if_neg (not_not_intro hh), if_neg (not_not_intro ⟨hlat1, hlat2⟩),
    if_neg (not_not_intro ⟨hlon1, hlon2⟩)]

lemma get_bounding_box_ok_val {lat lon h : ℝ} {b : BoundingBox}
    (hg : get_bounding_box lat lon h = .ok b) : b = bounding_box_of lat lon h := by
  unfold get_bounding_box at hg
  split_ifs at hg
  simp_all

lemma math_degrees_radians (x : ℝ) : math_degrees (math_radians x) = x := by
  have hπ := Real.pi_ne_zero
  unfold math_degrees math_radians
  field_simp

lemma math_degrees_le {a b : ℝ} (hab : a ≤ b) : math_degrees a ≤ math_degrees b := by
  have h : (0:ℝ) ≤ 180 / Real.pi := by positivity
  exact mul_le_mul_of_nonneg_right hab h

lemma math_degrees_lt {a b : ℝ} (hab : a < b) : math_degrees a < math_degrees b := by
  have h : (0:ℝ) < 180 / Real.pi := by positivity
  exact mul_lt_mul_of_pos_right hab h

lemma math_radians_mem_Icc {lat : ℝ} (h1 : -90 ≤ lat) (h2 : lat ≤ 90) :
    math_radians lat ∈ Set.Icc (-(Real.pi / 2)) (Real.pi / 2) := by
  have hp : (0:ℝ) ≤ Real.pi / 180 := by positivity
  constructor
  · calc -(Real.pi / 2) = -90 * (Real.pi / 180) := by ring
    _ ≤ lat * (Real.pi / 180) := mul_le_mul_of_nonneg_right h1 hp
  · calc lat * (Real.pi / 180) ≤ 90 * (Real.pi / 180) := mul_le_mul_of_nonneg_right h2 hp
    _ = Real.pi / 2 := by ring

lemma math_cos_eq_cos_of_ne {x : ℝ} (h1 : x ≠ Real.pi / 2) (h2 : x ≠ -(Real.pi / 2)) :
    math_cos x = Real.cos x := by
  unfold math_cos
  rw [if_neg (by push_neg; exact ⟨h1, h2⟩)]

/-- The cosine the program computes at a latitude of the asserted range is
positive: strictly inside (-90, 90) the exact cosine is positive, and at
±90 the computed double `6.123233995736766e-17` is positive. -/
lemma math_cos_radians_pos {lat : ℝ} (h1 : -90 ≤ lat) (h2 : lat ≤ 90) :
    0 < math_cos (math_radians lat) := by
  unfold math_cos
  split_ifs with hx
  · norm_num
  · push_neg at hx
    have hm := math_radians_mem_Icc h1 h2
    exact Real.cos_pos_of_mem_Ioo
      ⟨lt_of_le_of_ne hm.1 (Ne.symm hx.2), lt_of_le_of_ne hm.2 hx.1⟩

/-! ## Airbnb listings (`src/airbnb/airbnb.py`) -/

/-- `MIN_AIRBNB_PRICE` from the constants block. -/
def MIN_AIRBNB_PRICE : ℚ := 0

/-- `MAX_AIRBNB_PRICE` from the constants block. -/
def MAX_AIRBNB_PRICE : ℚ := 100000

/-- One parsed row of the listings dataframe produced by `get_listings`,
restricted to the columns the analysed functions read.  `price` and
`host_acceptance_rate` are `Option ℚ` because `pd.to_numeric(errors='coerce')`
turns malformed cells into the missing-value marker `NaN` (here `none`);
`review_score` is `Option ℚ` because the CSV column may be empty. -/
structure Listing where
  id : ℕ
  lat : ℚ
  lon : ℚ
  price : Option ℚ
  host_acceptance_rate : Option ℚ
  host_identity_verified : String
  num_reviews : ℤ
  review_score : Option ℚ
  deriving DecidableEq

/-- One raw CSV row before the numeric coercion of lines 77-79 of
`airbnb.py`: `price` and `host_acceptance_rate` are still the strings read
from the file. -/
structure RawListing where
  id : ℕ
  lat : ℚ
  lon : ℚ
  price : String
  host_acceptance_rate : String
  host_identity_verified : String
  num_reviews : ℤ
  review_score : Option ℚ
  deriving DecidableEq

/-- Value of a decimal digit character. -/
def char_to_digit (c : Char) : ℕ := c.toNat - 48

/-- Value of a string of decimal digit characters. -/
def digits_to_nat (ds : List Char) : ℕ := ds.foldl (fun n c => 10 * n + char_to_digit c) 0

/-- Parse an unsigned decimal numeral (digits with at most one decimal
point); `none` when the characters do not form one. -/
def parse_unsigned_numeric (cs : List Char) : Option ℚ :=
  let intPart := cs.takeWhile Char.isDigit
  let rest := cs.dropWhile Char.isDigit
  match rest with
  | [] => if intPart.isEmpty then none else some (digits_to_nat intPart)
  | '.' :: fracPart =>
    if fracPart.all Char.isDigit && (!intPart.isEmpty || !fracPart.isEmpty) then
      some ((digits_to_nat intPart : ℚ) + (digits_to_nat fracPart : ℚ) / (10 : ℚ) ^ fracPart.length)
    else none
  | _ => none

/-- Numeric parsing of one cell: an optional sign followed by an unsigned
decimal numeral. -/
def parse_numeric (s : String) : Option ℚ :=
  match s.data with
  | '-' :: rest => (parse_unsigned_numeric rest).map (fun q => -q)
  | '+' :: rest => parse_unsigned_numeric rest
  | cs => parse_unsigned_numeric cs

/-- Models `pd.to_numeric(..., errors='coerce')` applied to one cell: a cell
that does not parse as a number is coerced to the missing-value marker
(`none`) instead of raising.  The coercion is total: it never fails. -/
def to_numeric_coerce (s : String) : Option ℚ := parse_numeric s

/-- Models the `.str.replace('$', '')` / `.str.replace('%', '')` idiom of
lines 77-79 of `airbnb.py`: remove every occurrence of the single symbol
character from the cell. -/
def str_replace_char (s : String) (c : Char) : String :=
  ⟨s.data.filter (fun x => !(x == c))⟩

/-- The per-row data-type fixing of `get_listings` (lines 77-79 of
`airbnb.py`): strip the currency symbol from `price` and the percent symbol
from `host_acceptance_rate` and coerce both to numbers, keeping every other
column unchanged. -/
def parse_listing (r : RawListing) : Listing :=
  { id := r.id
    lat := r.lat
    lon := r.lon
    price := to_numeric_coerce (str_replace_char r.price '$')
    host_acceptance_rate := to_numeric_coerce (str_replace_char r.host_acceptance_rate '%')
    host_identity_verified := r.host_identity_verified
    num_reviews := r.num_reviews
    review_score := r.review_score }

/-- `get_listings` of `airbnb.py`, row level: read the rows and fix the
column data types.  It is total: no row makes it raise. -/
def get_listings (rows : List RawListing) : List Listing := rows.map parse_listing

/-- `get_user_input` of `airbnb.py` (lines 47-58): the optional minimum
price is stored under the key `"mix_price"` (sic, line 54) and the optional
maximum price under `"max_price"`, giving the user-filter dictionary as an
association list. -/
def get_user_input (min_price max_price : Option ℚ) : List (String × ℚ) :=
  (match min_price with
   | some v => [("mix_price", v)]
   | none => []) ++
  (match max_price with
   | some v => [("max_price", v)]
   | none => [])

/-- `filter_listings` of `airbnb.py` (lines 95-113): keep rows with a
non-missing review score, more than 10 reviews and a review score above 75,
then rows with a verified host, and finally - only when a (truthy, i.e.
non-empty) user filter dictionary was supplied - rows whose price lies in
the user price range, the bounds defaulting to `MIN_AIRBNB_PRICE` and
`MAX_AIRBNB_PRICE` for absent keys.  A missing price compares false against
both bounds, as a pandas `NaN` does. -/
def filter_listings (listings : List Listing) (user_filter : List (String × ℚ)) : List Listing :=
  let l1 := listings.filter (fun l => l.review_score.isSome)
  let l2 := l1.filter (fun l =>
    decide (l.num_reviews > 10) &&
      (match l.review_score with
       | some s => decide (s > 75)
       | none => false))
  let l3 := l2.filter (fun l => l.host_identity_verified == "t")
  if user_filter.isEmpty then l3
  else
    let min_price := (user_filter.lookup "min_price").getD MIN_AIRBNB_PRICE
    let max_price := (user_filter.lookup "max_price").getD MAX_AIRBNB_PRICE
    l3.filter (fun l =>
      match l.price with
      | some p => decide (min_price ≤ p) && decide (p ≤ max_price)
      | none => false)

/-! ## Ideal-listing selection (`get_ideal_listings`, lines 173-185) -/

/-- The per-box selection inside the loop of `get_ideal_listings` (lines
176-179 of `airbnb.py`): first the mask `lat > lat_min & lon > lon_min`,
then the mask `lat < lat_max & lon < lon_max`, both with the exclusive
comparisons of the source. -/
noncomputable def select_listings_in_box (location : BoundingBox) (airbnb_locations : List Listing) :
    List Listing :=
  let listings := airbnb_locations.filter (fun a =>
    decide ((a.lat : ℝ) > location.lat_min) && decide ((a.lon : ℝ) > location.lon_min))
  listings.filter (fun a =>
    decide ((a.lat : ℝ) < location.lat_max) && decide ((a.lon : ℝ) < location.lon_max))

/-- A listing lies strictly inside a bounding box. -/
noncomputable def inBox (location : BoundingBox) (a : Listing) : Bool :=
  decide (location.lat_min < (a.lat : ℝ)) && decide ((a.lat : ℝ) < location.lat_max) &&
    decide (location.lon_min < (a.lon : ℝ)) && decide ((a.lon : ℝ) < location.lon_max)

/-- The list comprehension of line 174 of `airbnb.py`: one bounding box per
cluster centre.  A centre that violates a precondition of `get_bounding_box`
propagates the assertion error. -/
noncomputable def compute_boxes (clusters_center : List (ℝ × ℝ)) (distance : ℝ) :
    Except String (List BoundingBox) :=
  match clusters_center with
  | [] => .ok []
  | center :: rest =>
    match get_bounding_box center.1 center.2 distance with
    | .error e => .error e
    | .ok box =>
      match compute_boxes rest distance with
      | .error e => .error e
      | .ok boxes => .ok (box :: boxes)

/-- Models `pd.concat(objs)`: concatenation of the dataframes, except that
pandas raises `ValueError: No objects to concatenate` when `objs` is empty. -/
def pd_concat {α : Type} (objs : List (List α)) : Except String (List α) :=
  if objs.isEmpty then .error "ValueError: No objects to concatenate"
  else .ok objs.flatten

/-- Models `DataFrame.drop_duplicates(keep=False)`: every row that occurs
more than once (as a full-row duplicate) is removed entirely, first
occurrence included; the remaining rows keep their order. -/
def drop_duplicates_keep_false {α : Type} [DecidableEq α] (df : List α) : List α :=
  df.filter (fun x => df.count x == 1)

/-- `get_ideal_listings` of `airbnb.py` (lines 173-185): one bounding box
per cluster centre, the per-box strict selection, `pd.concat` of the per-box
selections, and `drop_duplicates(keep=False)` on the concatenation. -/
noncomputable def get_ideal_listings (airbnb_locations : List Listing)
    (clusters_center : List (ℝ × ℝ)) (distance : ℝ) : Except String (List Listing) :=
  match compute_boxes clusters_center distance with
  | .error e => .error e
  | .ok ideal_locations =>
    match pd_concat (ideal_locations.map
        (fun location => select_listings_in_box location airbnb_locations)) with
    | .error e => .error e
    | .ok concatenated => .ok (drop_duplicates_keep_false concatenated)

/-! ## Restaurants (`src/restuarants/restaurants.py`) -/

/-- One restaurant row of the amenities dataframe, restricted to the columns
`split_restaurants` reads. -/
structure Restaurant where
  id : ℕ
  name : String
  lat : ℚ
  lon : ℚ
  deriving DecidableEq

/-- `get_restaurant_count` of `restaurants.py` (lines 60-61): the
`groupby('name').count()` lookup gives, for a name, the number of rows of
the dataframe bearing that name. -/
def get_restaurant_count (name : String) (restaurants : List Restaurant) : ℕ :=
  (restaurants.filter (fun r => r.name == name)).length

/-- `split_restaurants` of `restaurants.py` (lines 64-71): every row is
annotated with the number of rows sharing its name, and the input is split
into the rows whose count is `> 1` (chains) and those whose count is `< 2`
(non-chains). -/
def split_restaurants (restaurants : List Restaurant) : List Restaurant × List Restaurant :=
  let chain_restaurants := restaurants.filter
    (fun r => decide (get_restaurant_count r.name restaurants > 1))
  let non_chain_restaurants := restaurants.filter
    (fun r => decide (get_restaurant_count r.name restaurants < 2))
  (chain_restaurants, non_chain_restaurants)

/-- The number of computed cluster boxes strictly containing a listing,
counted with multiplicity over the list of cluster centres. -/
noncomputable def boxes_containing (clusters_center : List (ℝ × ℝ)) (distance : ℝ)
    (a : Listing) : ℕ :=
  (clusters_center.map (fun c => bounding_box_of c.1 c.2 distance)).countP (fun b => inBox b a)

/-! ## Helper lemmas about the ideal-listing pipeline -/

lemma mem_select_listings_in_box {location : BoundingBox} {airbnb_locations : List Listing}
    {a : Listing} :
    a ∈ select_listings_in_box location airbnb_locations ↔
      a ∈ airbnb_locations ∧ inBox location a = true := by
  unfold select_listings_in_box inBox
  simp only [List.mem_filter, Bool.and_eq_true, decide_eq_true_eq, gt_iff_lt]
  tauto

lemma count_select_listings_in_box (location : BoundingBox) (airbnb_locations : List Listing)
    (a : Listing) :
    (select_listings_in_box location airbnb_locations).count a =
      if inBox location a = true then airbnb_locations.count a else 0 := by
  by_cases hib : inBox location a = true
  · rw [if_pos hib]
    unfold inBox at hib
    simp only [Bool.and_eq_true, decide_eq_true_eq] at hib
    unfold select_listings_in_box
    rw [List.count_filter (by simp only [Bool.and_eq_true, decide_eq_true_eq]; exact ⟨hib.1.1.2, hib.2⟩),
      List.count_filter (by simp only [Bool.and_eq_true, decide_eq_true_eq, gt_iff_lt]; exact ⟨hib.1.1.1, hib.1.2⟩)]
  · rw [if_neg hib]
    refine List.count_eq_zero_of_not_mem (fun hmem => hib ?_)
    exact (mem_select_listings_in_box.mp hmem).2

lemma sum_map_ite_count {α : Type} (p : α → Bool) (L : List α) (c : ℕ) :
    (L.map (fun b => if p b = true then c else 0)).sum = c * L.countP p := by
  induction L with
  | nil => simp
  | cons x xs ih =>
    by_cases hpx : p x = true <;>
      simp [hpx, ih, List.countP_cons, Nat.mul_succ, Nat.add_comm]

lemma compute_boxes_ok {clusters_center : List (ℝ × ℝ)} {distance : ℝ}
    {boxes : List BoundingBox} (h : compute_boxes clusters_center distance = .ok boxes) :
    boxes = clusters_center.map (fun c => bounding_box_of c.1 c.2 distance) := by
  induction clusters_center generalizing boxes with
  | nil =>
    unfold compute_boxes at h
    simp only [Except.ok.injEq] at h
    simp [← h]
  | cons c rest ih =>
    unfold compute_boxes at h
    cases hg : get_bounding_box c.1 c.2 distance with
    | error e => rw [hg] at h; exact absurd h (by simp)
    | ok box =>
      rw [hg] at h
      cases hr : compute_boxes rest distance with
      | error e => rw [hr] at h; exact absurd h (by simp)
      | ok bs =>
        rw [hr] at h
        simp only [Except.ok.injEq] at h
        rw [← h, List.map_cons, ← ih hr, get_bounding_box_ok_val hg]

lemma pd_concat_ok {α : Type} {objs : List (List α)} {df : List α}
    (h : pd_concat objs = .ok df) : df = objs.flatten := by
  unfold pd_concat at h
  split_ifs at h
  simpa using h.symm

lemma mem_drop_duplicates_keep_false {α : Type} [DecidableEq α] {df : List α} {a : α} :
    a ∈ drop_duplicates_keep_false df ↔ a ∈ df ∧ df.count a = 1 := by
  unfold drop_duplicates_keep_false
  simp [List.mem_filter]

lemma get_ideal_listings_ok {airbnb_locations : List Listing}
    {clusters_center : List (ℝ × ℝ)} {distance : ℝ} {res : List Listing}
    (h : get_ideal_listings airbnb_locations clusters_center distance = .ok res) :
    ∃ boxes, compute_boxes clusters_center distance = .ok boxes ∧
      boxes = clusters_center.map (fun c => bounding_box_of c.1 c.2 distance) ∧
      (boxes.map (fun location => select_listings_in_box location airbnb_locations)) ≠ [] ∧
      res = drop_duplicates_keep_false
        ((boxes.map (fun location => select_listings_in_box location airbnb_locations)).flatten) := by
  unfold get_ideal_listings at h
  cases hcb : compute_boxes clusters_center distance with
  | error e => rw [hcb] at h; exact absurd h (by simp)
  | ok boxes =>
    simp only [hcb] at h
    cases hpc : pd_concat (boxes.map
        (fun location => select_listings_in_box location airbnb_locations)) with
    | error e => simp only [hpc] at h; exact absurd h (by simp)
    | ok concatenated =>
      simp only [hpc, Except.ok.injEq] at h
      refine ⟨boxes, rfl, compute_boxes_ok hcb, ?_, ?_⟩
      · intro hemp
        unfold pd_concat at hpc
        rw [hemp] at hpc
        simp at hpc
      · rw [← h, pd_concat_ok hpc]

lemma boxes_containing_eq (clusters_center : List (ℝ × ℝ)) (distance : ℝ) (a : Listing) :
    boxes_containing clusters_center distance a =
      (clusters_center.map (fun c => bounding_box_of c.1 c.2 distance)).countP
        (fun b => inBox b a) :=
  rfl

lemma count_flatten_select {boxes : List BoundingBox} {airbnb_locations : List Listing}
    {a : Listing} (hnd : airbnb_locations.Nodup) (ha : a ∈ airbnb_locations) :
    ((boxes.map (fun location => select_listings_in_box location airbnb_locations)).flatten).count a
      = boxes.countP (fun b => inBox b a) := by
  rw [List.count_flatten, List.map_map]
  have hc1 : airbnb_locations.count a = 1 := List.count_eq_one_of_mem hnd ha
  have hfun : (List.count a ∘ fun location => select_listings_in_box location airbnb_locations)
      = fun b => if inBox b a = true then 1 else 0 := by
    funext b
    simp only [Function.comp_apply, count_select_listings_in_box, hc1]
  rw [hfun, sum_map_ite_count, one_mul]

lemma bounding_box_of_lat_min (lat lon h : ℝ) :
    (bounding_box_of lat lon h).lat_min = math_degrees (math_radians lat - h / 6371) := rfl

lemma bounding_box_of_lat_max (lat lon h : ℝ) :
    (bounding_box_of lat lon h).lat_max = math_degrees (math_radians lat + h / 6371) := rfl

lemma bounding_box_of_lon_min (lat lon h : ℝ) :
    (bounding_box_of lat lon h).lon_min =
      math_degrees (math_radians lon - h / (6371 * math_cos (math_radians lat))) := rfl

lemma bounding_box_of_lon_max (lat lon h : ℝ) :
    (bounding_box_of lat lon h).lon_max =
      math_degrees (math_radians lon + h / (6371 * math_cos (math_radians lat))) := rfl

lemma math_degrees_sub (a b : ℝ) : math_degrees a - math_degrees b = math_degrees (a - b) := by
  unfold math_degrees; ring

/-! ## Claim theorems -/

/-- C5: `get_bounding_box` fails with an assertion error whenever radius is
nonpositive, or the latitude is outside [-90, 90], or the longitude is
outside [-180, 180]; when all three preconditions hold no error is raised
and a box is returned. -/
theorem get_bounding_box_precondition_check (lat lon h : ℝ) :
    ((h ≤ 0 ∨ 90 < |lat| ∨ 180 < |lon|) → ∃ e, get_bounding_box lat lon h = .error e) ∧
    (0 < h → |lat| ≤ 90 → |lon| ≤ 180 → ∃ b, get_bounding_box lat lon h = .ok b) := by
  constructor
  · intro hbad
    unfold get_bounding_box
    split_ifs with h1 h2 h3
    · rcases hbad with hb | hb | hb
      · exact absurd h1 (not_lt.mpr hb)
      · exact absurd (abs_le.mpr h2) (not_le.mpr hb)
      · exact absurd (abs_le.mpr h3) (not_le.mpr hb)
    · exact ⟨_, rfl⟩
    · exact ⟨_, rfl⟩
    · exact ⟨_, rfl⟩
  · intro hh hlat hlon
    exact ⟨_, get_bounding_box_ok lat lon h hh (abs_le.mp hlat).1 (abs_le.mp hlat).2
      (abs_le.mp hlon).1 (abs_le.mp hlon).2⟩

/-- Witness for C5 at a rejected input (radius 0) and at an accepted
Vancouver-like input. -/
theorem get_bounding_box_precondition_check_witness :
    (∃ e, get_bounding_box 0 0 0 = .error e) ∧ (∃ b, get_bounding_box 49 (-123) 5 = .ok b) :=
  ⟨(get_bounding_box_precondition_check 0 0 0).1 (Or.inl le_rfl),
   (get_bounding_box_precondition_check 49 (-123) 5).2 (by norm_num)
     (by rw [abs_le]; constructor <;> norm_num)
     (by rw [abs_le]; constructor <;> norm_num)⟩

/-- C6: for a valid centre and a positive radius the returned box satisfies
`lat_min ≤ lat_max` and `lon_min ≤ lon_max`; a zero or negative radius is
rejected with an error and yields no box. -/
theorem bounding_box_min_le_max (lat lon h : ℝ)
    (hlat : -90 ≤ lat ∧ lat ≤ 90) (hlon : -180 ≤ lon ∧ lon ≤ 180) :
    (0 < h → ∃ b, get_bounding_box lat lon h = .ok b ∧
      b.lat_min ≤ b.lat_max ∧ b.lon_min ≤ b.lon_max) ∧
    (h ≤ 0 → ∃ e, get_bounding_box lat lon h = .error e) := by
  constructor
  · intro hh
    refine ⟨_, get_bounding_box_ok lat lon h hh hlat.1 hlat.2 hlon.1 hlon.2, ?_, ?_⟩
    · rw [bounding_box_of_lat_min, bounding_box_of_lat_max]
      apply math_degrees_le
      have h6 : (0:ℝ) ≤ h / 6371 := by positivity
      linarith
    · rw [bounding_box_of_lon_min, bounding_box_of_lon_max]
      apply math_degrees_le
      have hc : 0 < math_cos (math_radians lat) := math_cos_radians_pos hlat.1 hlat.2
      have h6 : (0:ℝ) ≤ h / (6371 * math_cos (math_radians lat)) :=
        div_nonneg hh.le (by nlinarith)
      linarith
  · intro hh
    unfold get_bounding_box
    rw [if_pos (not_lt.mpr hh)]
    exact ⟨_, rfl⟩

/-- Witness for C6 at centre (0, 0) with radius 1, and at radius 0. -/
theorem bounding_box_min_le_max_witness :
    (∃ b, get_bounding_box 0 0 1 = .ok b ∧ b.lat_min ≤ b.lat_max ∧ b.lon_min ≤ b.lon_max) ∧
    (∃ e, get_bounding_box 0 0 0 = .error e) :=
  ⟨(bounding_box_min_le_max 0 0 1 (by norm_num) (by norm_num)).1 (by norm_num),
   (bounding_box_min_le_max 0 0 0 (by norm_num) (by norm_num)).2 le_rfl⟩

/-- C2: for every centre with latitude in [-90, 90], longitude in
[-180, 180] and every radius r > 0, the returned bounding box strictly
contains the centre in both coordinates.  This covers the poles: there the
program's computed cosine is the positive double `6.123233995736766e-17`
(see `math_cos`), so the longitude offset is a positive (huge but finite)
quantity and containment stays strict. -/
theorem get_bounding_box_strictly_contains_center (lat lon h : ℝ)
    (hlat : -90 ≤ lat ∧ lat ≤ 90) (hlon : -180 ≤ lon ∧ lon ≤ 180) (hh : 0 < h) :
    ∃ b, get_bounding_box lat lon h = .ok b ∧
      b.lat_min < lat ∧ lat < b.lat_max ∧ b.lon_min < lon ∧ lon < b.lon_max := by
  refine ⟨_, get_bounding_box_ok lat lon h hh hlat.1 hlat.2 hlon.1 hlon.2,
    ?_, ?_, ?_, ?_⟩
  · rw [bounding_box_of_lat_min]
    have hd : (0:ℝ) < h / 6371 := by positivity
    calc math_degrees (math_radians lat - h / 6371)
        < math_degrees (math_radians lat) := math_degrees_lt (by linarith)
    _ = lat := math_degrees_radians lat
  · rw [bounding_box_of_lat_max]
    have hd : (0:ℝ) < h / 6371 := by positivity
    calc lat = math_degrees (math_radians lat) := (math_degrees_radians lat).symm
    _ < math_degrees (math_radians lat + h / 6371) := math_degrees_lt (by linarith)
  · rw [bounding_box_of_lon_min]
    have hc : 0 < math_cos (math_radians lat) := math_cos_radians_pos hlat.1 hlat.2
    have hd : (0:ℝ) < h / (6371 * math_cos (math_radians lat)) :=
      div_pos hh (by nlinarith)
    calc math_degrees (math_radians lon - h / (6371 * math_cos (math_radians lat)))
        < math_degrees (math_radians lon) := math_degrees_lt (by linarith)
    _ = lon := math_degrees_radians lon
  · rw [bounding_box_of_lon_max]
    have hc : 0 < math_cos (math_radians lat) := math_cos_radians_pos hlat.1 hlat.2
    have hd : (0:ℝ) < h / (6371 * math_cos (math_radians lat)) :=
      div_pos hh (by nlinarith)
    calc lon = math_degrees (math_radians lon) := (math_degrees_radians lon).symm
    _ < math_degrees (math_radians lon + h / (6371 * math_cos (math_radians lat))) :=
      math_degrees_lt (by linarith)

/-- Witness for C2 at centre (0, 0) with radius 1. -/
theorem get_bounding_box_strictly_contains_center_witness :
    ∃ b, get_bounding_box 0 0 1 = .ok b ∧
      b.lat_min < 0 ∧ 0 < b.lat_max ∧ b.lon_min < 0 ∧ 0 < b.lon_max :=
  get_bounding_box_strictly_contains_center 0 0 1 (by norm_num) (by norm_num) (by norm_num)

/-- C7: for every fixed centre with latitude in [-90, 90] and longitude in
[-180, 180], and radii 0 < r1 < r2, the box for r2 has strictly larger
latitude and longitude spans than the box for r1.  This covers the poles:
there the program's computed cosine is the positive double
`6.123233995736766e-17` (see `math_cos`), so the longitude spans are finite
and still scale strictly with the radius. -/
theorem get_bounding_box_radius_monotone (lat lon r1 r2 : ℝ)
    (hlat : -90 ≤ lat ∧ lat ≤ 90) (hlon : -180 ≤ lon ∧ lon ≤ 180)
    (h1 : 0 < r1) (h12 : r1 < r2) :
    ∃ b1 b2, get_bounding_box lat lon r1 = .ok b1 ∧ get_bounding_box lat lon r2 = .ok b2 ∧
      b1.lat_max - b1.lat_min < b2.lat_max - b2.lat_min ∧
      b1.lon_max - b1.lon_min < b2.lon_max - b2.lon_min := by
  have h2 : 0 < r2 := h1.trans h12
  refine ⟨_, _,
    get_bounding_box_ok lat lon r1 h1 hlat.1 hlat.2 hlon.1 hlon.2,
    get_bounding_box_ok lat lon r2 h2 hlat.1 hlat.2 hlon.1 hlon.2, ?_, ?_⟩
  · rw [bounding_box_of_lat_min, bounding_box_of_lat_max,
      bounding_box_of_lat_min, bounding_box_of_lat_max,
      math_degrees_sub, math_degrees_sub]
    apply math_degrees_lt
    have : r1 / 6371 < r2 / 6371 := by gcongr
    linarith
  · rw [bounding_box_of_lon_min, bounding_box_of_lon_max,
      bounding_box_of_lon_min, bounding_box_of_lon_max,
      math_degrees_sub, math_degrees_sub]
    apply math_degrees_lt
    have hc : 0 < math_cos (math_radians lat) := math_cos_radians_pos hlat.1 hlat.2
    have hD : (0:ℝ) < 6371 * math_cos (math_radians lat) := by nlinarith
    have : r1 / (6371 * math_cos (math_radians lat)) <
        r2 / (6371 * math_cos (math_radians lat)) := by gcongr
    linarith

/-- Witness for C7 at centre (0, 0) with radii 1 and 2. -/
theorem get_bounding_box_radius_monotone_witness :
    ∃ b1 b2, get_bounding_box 0 0 1 = .ok b1 ∧ get_bounding_box 0 0 2 = .ok b2 ∧
      b1.lat_max - b1.lat_min < b2.lat_max - b2.lat_min ∧
      b1.lon_max - b1.lon_min < b2.lon_max - b2.lon_min :=
  get_bounding_box_radius_monotone 0 0 1 2 (by norm_num) (by norm_num) (by norm_num) (by norm_num)

/-- C3: the per-box selection keeps a listing if and only if its coordinates
lie strictly inside the box (exclusive bounds); a listing whose latitude or
longitude equals a bound of the box is excluded from that box's selection. -/
theorem select_listings_in_box_exclusive_bounds (location : BoundingBox)
    (airbnb_locations : List Listing) (a : Listing) :
    (a ∈ select_listings_in_box location airbnb_locations ↔
      a ∈ airbnb_locations ∧ location.lat_min < (a.lat : ℝ) ∧ (a.lat : ℝ) < location.lat_max ∧
        location.lon_min < (a.lon : ℝ) ∧ (a.lon : ℝ) < location.lon_max) ∧
    (((a.lat : ℝ) = location.lat_min ∨ (a.lat : ℝ) = location.lat_max ∨
        (a.lon : ℝ) = location.lon_min ∨ (a.lon : ℝ) = location.lon_max) →
      a ∉ select_listings_in_box location airbnb_locations) := by
  have hiff : a ∈ select_listings_in_box location airbnb_locations ↔
      a ∈ airbnb_locations ∧ location.lat_min < (a.lat : ℝ) ∧ (a.lat : ℝ) < location.lat_max ∧
        location.lon_min < (a.lon : ℝ) ∧ (a.lon : ℝ) < location.lon_max := by
    rw [mem_select_listings_in_box]
    unfold inBox
    simp only [Bool.and_eq_true, decide_eq_true_eq]
    tauto
  refine ⟨hiff, ?_⟩
  intro heq hmem
  obtain ⟨-, h1, h2, h3, h4⟩ := hiff.mp hmem
  rcases heq with he | he | he | he <;> linarith

/-- Witness for C3: a listing at (0, 0) is selected for the box
(-1, -1, 1, 1), and a listing with latitude exactly on `lat_max = 1` of the
box (-1, -1, 1, 1) is excluded. -/
theorem select_listings_in_box_exclusive_bounds_witness :
    (⟨1, 0, 0, none, none, "t", 0, none⟩ : Listing) ∈
      select_listings_in_box ⟨-1, -1, 1, 1⟩ [⟨1, 0, 0, none, none, "t", 0, none⟩] ∧
    (⟨2, 1, 0, none, none, "t", 0, none⟩ : Listing) ∉
      select_listings_in_box ⟨-1, -1, 1, 1⟩ [⟨2, 1, 0, none, none, "t", 0, none⟩] := by
  constructor
  · refine (select_listings_in_box_exclusive_bounds ⟨-1, -1, 1, 1⟩ _ _).1.mpr
      ⟨List.mem_singleton.mpr rfl, ?_, ?_, ?_, ?_⟩ <;> push_cast <;> norm_num
  · refine (select_listings_in_box_exclusive_bounds ⟨-1, -1, 1, 1⟩ _ _).2
      (Or.inr (Or.inl ?_))
    push_cast
    norm_num

/-- C1: whenever `get_ideal_listings` succeeds on a duplicate-free listing
set, a listing strictly inside exactly one cluster box is in the result,
and a listing strictly inside two or more cluster boxes is removed entirely
(its first occurrence included), hence absent from the result. -/
theorem get_ideal_listings_unique_box (airbnb_locations : List Listing)
    (clusters_center : List (ℝ × ℝ)) (distance : ℝ) (res : List Listing)
    (hok : get_ideal_listings airbnb_locations clusters_center distance = .ok res)
    (hnd : airbnb_locations.Nodup) (a : Listing) (ha : a ∈ airbnb_locations) :
    (boxes_containing clusters_center distance a = 1 → a ∈ res) ∧
    (2 ≤ boxes_containing clusters_center distance a → a ∉ res) := by
  obtain ⟨boxes, hcb, hbx, hne, hres⟩ := get_ideal_listings_ok hok
  have hcount :
      ((boxes.map (fun location => select_listings_in_box location airbnb_locations)).flatten).count a
        = boxes_containing clusters_center distance a := by
    rw [count_flatten_select hnd ha, boxes_containing_eq, hbx]
  constructor
  · intro h1
    rw [hres, mem_drop_duplicates_keep_false]
    have hc1 :
        ((boxes.map (fun location => select_listings_in_box location airbnb_locations)).flatten).count a = 1 := by
      rw [hcount]; exact h1
    exact ⟨List.count_pos_iff.mp (by omega), hc1⟩
  · intro h2 hmem
    rw [hres, mem_drop_duplicates_keep_false] at hmem
    have := hmem.2
    rw [hcount] at this
    omega

/-- Concrete listing at the origin, used to evaluate the pipeline on a
closed input. -/
def listing_zero : Listing := ⟨1, 0, 0, some 100, some 95, "t", 20, some 80⟩

lemma get_bounding_box_zero_eval :
    get_bounding_box 0 0 6371 = .ok (bounding_box_of 0 0 6371) :=
  get_bounding_box_ok 0 0 6371 (by norm_num) (by norm_num) (by norm_num) (by norm_num)
    (by norm_num)

lemma bounding_box_of_zero_eval :
    bounding_box_of 0 0 6371 =
      ⟨-(180 / Real.pi), -(180 / Real.pi), 180 / Real.pi, 180 / Real.pi⟩ := by
  have hone : math_cos (math_radians 0) = 1 := by
    rw [show math_radians 0 = 0 by unfold math_radians; ring,
      math_cos_eq_cos_of_ne (ne_of_lt (by positivity))
        (ne_of_gt (neg_lt_zero.mpr (by positivity))), Real.cos_zero]
  rw [bounding_box_of_def, hone]
  unfold math_radians math_degrees
  simp only [BoundingBox.mk.injEq]
  norm_num

lemma inBox_zero_eval :
    inBox ⟨-(180 / Real.pi), -(180 / Real.pi), 180 / Real.pi, 180 / Real.pi⟩ listing_zero
      = true := by
  have hp : (0:ℝ) < 180 / Real.pi := by positivity
  unfold inBox listing_zero
  simp only [Bool.and_eq_true, decide_eq_true_eq]
  refine ⟨⟨⟨?_, ?_⟩, ?_⟩, ?_⟩ <;> push_cast <;> linarith

lemma select_zero_eval :
    select_listings_in_box ⟨-(180 / Real.pi), -(180 / Real.pi), 180 / Real.pi, 180 / Real.pi⟩
      [listing_zero] = [listing_zero] := by
  have hp : (0:ℝ) < 180 / Real.pi := by positivity
  have hc1 : (decide ((listing_zero.lat : ℝ) > -(180 / Real.pi)) &&
      decide ((listing_zero.lon : ℝ) > -(180 / Real.pi))) = true := by
    simp only [listing_zero, Bool.and_eq_true, decide_eq_true_eq, gt_iff_lt]
    constructor <;> push_cast <;> linarith
  have hc2 : (decide ((listing_zero.lat : ℝ) < 180 / Real.pi) &&
      decide ((listing_zero.lon : ℝ) < 180 / Real.pi)) = true := by
    simp only [listing_zero, Bool.and_eq_true, decide_eq_true_eq]
    constructor <;> push_cast <;> linarith
  unfold select_listings_in_box
  simp only [List.filter_cons, List.filter_nil, hc1, hc2, if_true]

lemma compute_boxes_zero_eval :
    compute_boxes [((0:ℝ), (0:ℝ))] 6371 = .ok [bounding_box_of 0 0 6371] := by
  simp only [compute_boxes, get_bounding_box_zero_eval]

lemma get_ideal_listings_zero_eval :
    get_ideal_listings [listing_zero] [((0:ℝ), (0:ℝ))] 6371 = .ok [listing_zero] := by
  unfold get_ideal_listings
  rw [compute_boxes_zero_eval]
  simp only [List.map_cons, List.map_nil, bounding_box_of_zero_eval, select_zero_eval]
  rw [show pd_concat [[listing_zero]] = .ok [listing_zero] from rfl]
  simp only [Except.ok.injEq]
  decide

/-- Witness for C1: on the concrete input with one listing at the origin and
one cluster centre at the origin, the pipeline succeeds and the listing,
which lies in exactly one box, is in the result. -/
theorem get_ideal_listings_unique_box_witness :
    ∃ res, get_ideal_listings [listing_zero] [((0:ℝ), (0:ℝ))] 6371 = .ok res ∧
      listing_zero ∈ res := by
  refine ⟨[listing_zero], get_ideal_listings_zero_eval, ?_⟩
  refine (get_ideal_listings_unique_box [listing_zero] [((0:ℝ), (0:ℝ))] 6371 [listing_zero]
    get_ideal_listings_zero_eval (by simp) listing_zero (by simp)).1 ?_
  rw [boxes_containing_eq]
  simp only [List.map_cons, List.map_nil, bounding_box_of_zero_eval,
    List.countP_cons, List.countP_nil, inBox_zero_eval]
  norm_num

/-- Counterexample to C4 as stated: with zero cluster centers the source
reaches `pd.concat([])`, which raises `ValueError: No objects to
concatenate`, so the call fails instead of returning an empty result set. -/
theorem get_ideal_listings_no_centers_cex :
    get_ideal_listings ([] : List Listing) [] 1 =
        .error "ValueError: No objects to concatenate" ∧
      ∀ res : List Listing, get_ideal_listings ([] : List Listing) [] 1 ≠ .ok res := by
  constructor
  · rfl
  · intro res hcon
    rw [show get_ideal_listings ([] : List Listing) [] 1 =
      .error "ValueError: No objects to concatenate" from rfl] at hcon
    exact absurd hcon (by simp)

/-- C4 (amended): with an empty list of cluster centers, `get_ideal_listings`
fails with pandas' `ValueError: No objects to concatenate` for every input
listing set, rather than returning an empty result. -/
theorem get_ideal_listings_no_centers (airbnb_locations : List Listing) (distance : ℝ) :
    get_ideal_listings airbnb_locations [] distance =
      .error "ValueError: No objects to concatenate" := rfl

/-- Counterexample to C8 as stated: a row whose price string "abc" does not
parse is coerced to a missing price, yet when no user price filter is
supplied, `filter_listings` retains the row (it passes the review and host
checks), so downstream filtering does not exclude it. -/
theorem malformed_numeric_row_retained_cex :
    to_numeric_coerce (str_replace_char "abc" '$') = none ∧
    (parse_listing ⟨1, 0, 0, "abc", "95%", "t", 20, some 80⟩).price = none ∧
    filter_listings [parse_listing ⟨1, 0, 0, "abc", "95%", "t", 20, some 80⟩] [] =
      [parse_listing ⟨1, 0, 0, "abc", "95%", "t", 20, some 80⟩] := by
  refine ⟨by decide, by decide, by decide⟩

/-- C8 (amended): malformed numeric cells are coerced to the missing-value
marker instead of raising - parsing always succeeds and the affected field
becomes missing - and the price-range filter, whenever a (non-empty) user
filter is supplied, excludes rows whose price is missing rather than
failing.  (A row with a malformed acceptance rate, or a malformed price when
no user filter is given, is not excluded.) -/
theorem malformed_numeric_coerced (r : RawListing) :
    (to_numeric_coerce (str_replace_char r.price '$') = none →
      (parse_listing r).price = none ∧
      ∀ user_filter : List (String × ℚ), user_filter ≠ [] →
        parse_listing r ∉ filter_listings [parse_listing r] user_filter) ∧
    (to_numeric_coerce (str_replace_char r.host_acceptance_rate '%') = none →
      (parse_listing r).host_acceptance_rate = none) := by
  constructor
  · intro hp
    have hpr : (parse_listing r).price = none := hp
    refine ⟨hpr, ?_⟩
    intro user_filter hne hmem
    simp only [filter_listings] at hmem
    rw [if_neg (fun hcon => hne (List.isEmpty_iff.mp hcon))] at hmem
    have hpred := (List.mem_filter.mp hmem).2
    rw [hpr] at hpred
    exact absurd hpred (by simp)
  · intro hq
    exact hq

/-- Witness for the amended C8 on a row with malformed price "abc" and
malformed acceptance rate "xyz", with a user filter supplying a maximum
price. -/
theorem malformed_numeric_coerced_witness :
    (parse_listing ⟨2, 0, 0, "abc", "xyz", "t", 20, some 80⟩).price = none ∧
    parse_listing ⟨2, 0, 0, "abc", "xyz", "t", 20, some 80⟩ ∉
      filter_listings [parse_listing ⟨2, 0, 0, "abc", "xyz", "t", 20, some 80⟩]
        [("max_price", (50:ℚ))] ∧
    (parse_listing ⟨2, 0, 0, "abc", "xyz", "t", 20, some 80⟩).host_acceptance_rate = none := by
  obtain ⟨h1, h2⟩ := malformed_numeric_coerced ⟨2, 0, 0, "abc", "xyz", "t", 20, some 80⟩
  obtain ⟨hp, hf⟩ := h1 (by decide)
  exact ⟨hp, hf [("max_price", (50:ℚ))] (by decide), h2 (by decide)⟩

/-- C9: the user-entered minimum price is stored under the key `"mix_price"`
while `filter_listings` reads `"min_price"`, so the lookup misses, the
effective lower bound is the default `MIN_AIRBNB_PRICE = 0`, and a
quality-passing listing priced below the entered minimum (and within
[0, MAX_AIRBNB_PRICE]) is still retained. -/
theorem min_price_never_applied (m : ℚ) (a : Listing) (s p : ℚ)
    (hrs : a.review_score = some s) (hs : 75 < s) (hn : 10 < a.num_reviews)
    (hv : a.host_identity_verified = "t") (hp : a.price = some p)
    (h0 : 0 ≤ p) (hmax : p ≤ MAX_AIRBNB_PRICE) (hbelow : p < m) :
    (get_user_input (some m) none).lookup "min_price" = none ∧
    a ∈ filter_listings [a] (get_user_input (some m) none) := by
  have huf : get_user_input (some m) none = [("mix_price", m)] := rfl
  constructor
  · rw [huf]; rfl
  · rw [huf]
    have hmin : (([("mix_price", m)] : List (String × ℚ)).lookup "min_price").getD
        MIN_AIRBNB_PRICE = 0 := rfl
    have hmax' : (([("mix_price", m)] : List (String × ℚ)).lookup "max_price").getD
        MAX_AIRBNB_PRICE = MAX_AIRBNB_PRICE := rfl
    simp only [filter_listings, hmin, hmax']
    rw [if_neg (by simp)]
    refine List.mem_filter.mpr ⟨?_, ?_⟩
    · refine List.mem_filter.mpr ⟨?_, ?_⟩
      · refine List.mem_filter.mpr ⟨?_, ?_⟩
        · exact List.mem_filter.mpr ⟨List.mem_singleton.mpr rfl, by rw [hrs]; rfl⟩
        · rw [hrs]
          simp only [Bool.and_eq_true, decide_eq_true_eq, gt_iff_lt]
          exact ⟨hn, hs⟩
      · rw [hv]
        rfl
    · rw [hp]
      simp only [Bool.and_eq_true, decide_eq_true_eq]
      exact ⟨h0, hmax⟩

/-- Witness for C9: with an entered minimum price of 500, a listing priced
at 100 (below the entered minimum) is retained. -/
theorem min_price_never_applied_witness :
    (get_user_input (some 500) none).lookup "min_price" = none ∧
    (⟨3, 0, 0, some 100, none, "t", 20, some 80⟩ : Listing) ∈
      filter_listings [⟨3, 0, 0, some 100, none, "t", 20, some 80⟩]
        (get_user_input (some 500) none) :=
  min_price_never_applied 500 ⟨3, 0, 0, some 100, none, "t", 20, some 80⟩ 80 100
    (by decide) (by decide) (by decide) (by decide) (by decide) (by decide) (by decide) (by decide)

/-- C10: `split_restaurants` partitions its input: a row whose name-count is
greater than 1 goes exactly to the chain group, a row whose name-count is
less than 2 goes exactly to the non-chain group, the two groups are
disjoint, and together they contain every input row. -/
theorem split_restaurants_partition (restaurants : List Restaurant) :
    (∀ r ∈ restaurants,
      (1 < get_restaurant_count r.name restaurants →
        r ∈ (split_restaurants restaurants).1 ∧ r ∉ (split_restaurants restaurants).2) ∧
      (get_restaurant_count r.name restaurants < 2 →
        r ∈ (split_restaurants restaurants).2 ∧ r ∉ (split_restaurants restaurants).1)) ∧
    (∀ r : Restaurant, ¬ (r ∈ (split_restaurants restaurants).1 ∧
      r ∈ (split_restaurants restaurants).2)) ∧
    (split_restaurants restaurants).1.length + (split_restaurants restaurants).2.length
      = restaurants.length ∧
    (∀ r ∈ restaurants, r ∈ (split_restaurants restaurants).1 ∨
      r ∈ (split_restaurants restaurants).2) := by
  unfold split_restaurants
  simp only [List.mem_filter, decide_eq_true_eq, gt_iff_lt]
  refine ⟨?_, ?_, ?_, ?_⟩
  · intro r hr
    constructor
    · intro hc
      exact ⟨⟨hr, hc⟩, fun hcon => by omega⟩
    · intro hc
      exact ⟨⟨hr, hc⟩, fun hcon => by omega⟩
  · rintro r ⟨⟨-, h1⟩, ⟨-, h2⟩⟩
    omega
  · have hq : restaurants.filter
        (fun r => decide (get_restaurant_count r.name restaurants < 2))
        = restaurants.filter
          (fun r => !(decide (1 < get_restaurant_count r.name restaurants))) := by
      apply List.filter_congr
      intro x hx
      by_cases h : 1 < get_restaurant_count x.name restaurants <;> simp [h] <;> omega
    rw [hq, ← @List.length_eq_length_filter_add Restaurant restaurants
      (fun r => decide (1 < get_restaurant_count r.name restaurants))]
  · intro r hr
    by_cases h : 1 < get_restaurant_count r.name restaurants
    · exact Or.inl ⟨hr, h⟩
    · exact Or.inr ⟨hr, by omega⟩

/-- Witness for C10 on three concrete rows, two sharing the name "A": the
"A" rows are chains, the "B" row is a non-chain, and membership is exclusive. -/
theorem split_restaurants_partition_witness :
    ((⟨1, "A", 0, 0⟩ : Restaurant) ∈
        (split_restaurants [⟨1, "A", 0, 0⟩, ⟨2, "A", 0, 0⟩, ⟨3, "B", 0, 0⟩]).1 ∧
      (⟨1, "A", 0, 0⟩ : Restaurant) ∉
        (split_restaurants [⟨1, "A", 0, 0⟩, ⟨2, "A", 0, 0⟩, ⟨3, "B", 0, 0⟩]).2) ∧
    ((⟨3, "B", 0, 0⟩ : Restaurant) ∈
        (split_restaurants [⟨1, "A", 0, 0⟩, ⟨2, "A", 0, 0⟩, ⟨3, "B", 0, 0⟩]).2 ∧
      (⟨3, "B", 0, 0⟩ : Restaurant) ∉
        (split_restaurants [⟨1, "A", 0, 0⟩, ⟨2, "A", 0, 0⟩, ⟨3, "B", 0, 0⟩]).1) := by
  have h := split_restaurants_partition [⟨1, "A", 0, 0⟩, ⟨2, "A", 0, 0⟩, ⟨3, "B", 0, 0⟩]
  exact ⟨(h.1 ⟨1, "A", 0, 0⟩ (by decide)).1 (by decide),
    (h.1 ⟨3, "B", 0, 0⟩ (by decide)).2 (by decide)⟩
